import Mathlib

/-!
Verification of the yOS WebOS boot orchestration core against its design
specification.  The JavaScript source (src/boot/loader.js, src/unnamed/part_000,
src/unnamed/part_001) is shallowly embedded below: JS objects with string keys
become insertion-ordered association lists, thrown errors become explicit error
values, and calls to Date.now() become an explicit clock argument.
-/

set_option maxRecDepth 10000

/-! # Definitions -/

/-! ## JS-object model: insertion-ordered association lists

A JavaScript object with string keys preserves insertion order for its
(non-numeric) keys.  `objSet` mirrors `o[k] = v`: an existing key keeps its
position and gets the new value, a fresh key is appended.  `objGet` mirrors
`o[k]` (`none` is JS `undefined`). -/

def objGet {κ α : Type} [DecidableEq κ] : List (κ × α) → κ → Option α
  | [], _ => none
  | (k', v') :: rest, k => if k' = k then some v' else objGet rest k

def objSet {κ α : Type} [DecidableEq κ] : List (κ × α) → κ → α → List (κ × α)
  | [], k, v => [(k, v)]
  | (k', v') :: rest, k, v =>
    if k' = k then (k', v) :: rest else (k', v') :: objSet rest k v

/-- Keys of the association list, in JS `Object.keys` order. -/
def objKeys {κ α : Type} (l : List (κ × α)) : List κ := l.map Prod.fst

/-- An association list whose keys are pairwise distinct (the invariant JS
objects maintain automatically). -/
def objWF {κ α : Type} (l : List (κ × α)) : Prop := (objKeys l).Nodup

/-- JS object spread `{...a, ...b}`: `a`'s entries in order, values overridden
by `b` where keys collide, then `b`'s new keys appended in `b`'s order. -/
def objMerge {κ α : Type} [DecidableEq κ] (a b : List (κ × α)) : List (κ × α) :=
  b.foldl (fun acc p => objSet acc p.1 p.2) a

/-! ## Stage2KernelLoader (src/unnamed/part_000, class `Stage2KernelLoader`)

`loadEssentialModules` (lines 1724-1819) sorts a fixed module-definition list
by `priority` and loads each in that order, registering exported symbol names
into `this.symbols` by plain assignment.  `loadModule` (lines 1824-1948) looks
up a hard-coded template by name and checks that every declared dependency is
already in `this.modules`. -/

structure ModuleDef where
  name : String
  path : String
  priority : Int
  dependencies : List String
  exports : List String
deriving DecidableEq

/-- The observable part of a module template from `loadModule`'s
`moduleTemplates` table (lines 1828-1919).  The `initialize`/`api` function
bodies are opaque simulation payloads; only the api key names, version, type
and the existence of `initialize` matter to the orchestration core. -/
structure ModuleTemplate where
  name : String
  version : String
  type : String
  apiNames : List String
deriving DecidableEq

def moduleTemplates : String → Option ModuleTemplate := fun n =>
  if n = "scheduler" then
    some ⟨"scheduler", "1.0.0", "kernel",
      ["schedule", "createProcess", "terminateProcess", "yield", "sleep"]⟩
  else if n = "memory-manager" then
    some ⟨"memory-manager", "1.0.0", "kernel",
      ["kmalloc", "kfree", "mapMemory", "unmapMemory", "getPhysicalAddress"]⟩
  else if n = "process-manager" then
    some ⟨"process-manager", "1.0.0", "kernel",
      ["createProcess", "terminateProcess", "getProcessById", "getAllProcesses", "sendSignal"]⟩
  else if n = "ipc-system" then
    some ⟨"ipc-system", "1.0.0", "kernel",
      ["createMessageQueue", "sendMessage", "receiveMessage", "createSharedMemory",
       "destroySharedMemory"]⟩
  else if n = "syscalls" then
    some ⟨"syscalls", "1.0.0", "kernel", []⟩
  else none

/-- Module instance built at lines 1934-1945: template spread plus the
definition's dependencies, `initialized` set to true after `initialize` runs
(every template has `initialize`; its returned state object is opaque). -/
structure ModuleInstance where
  name : String
  version : String
  type : String
  apiNames : List String
  dependencies : List String
  initialized : Bool
deriving DecidableEq

/-- The errors thrown on the essential-module loading path.  There is no
cycle-reporting error anywhere in the source. -/
inductive KErr where
  | templateNotFound (name : String)
  | unsatisfiedDep (dep : String) (forModule : String)
  | essentialLoadFailed (name : String)
deriving DecidableEq

def kernelBase : Nat := 0x100000

/-- Symbol-table entry registered at lines 1804-1807. -/
structure SymbolEntry where
  module : String
  address : String
deriving DecidableEq

/-- `kernel+0x${(this.kernelBase + Object.keys(this.symbols).length * 8).toString(16)}` -/
def symAddr {α : Type} (syms : List (String × α)) : String :=
  "kernel+0x" ++ (Nat.toDigits 16 (kernelBase + (objKeys syms).length * 8)).asString

/-- The export-registration loop (lines 1803-1808): each export name is
assigned into the symbol table unconditionally (an existing key is silently
overwritten). -/
def registerExports (modName : String) :
    List String → List (String × SymbolEntry) → List (String × SymbolEntry)
  | [], syms => syms
  | e :: es, syms =>
    registerExports modName es (objSet syms e ⟨modName, symAddr syms⟩)

structure KLState where
  modules : List (String × ModuleInstance)
  symbols : List (String × SymbolEntry)
deriving DecidableEq

def freshKL : KLState := ⟨[], []⟩

/-- `loadModule` (lines 1824-1948): template lookup first (throws
`Template no encontrado` when absent), then the dependency check in
declaration order (throws `Dependencia no satisfecha` at the first dependency
not present in `this.modules`).  The function itself never writes
`this.modules`. -/
def loadModule (d : ModuleDef) (modules : List (String × ModuleInstance)) :
    Except KErr ModuleInstance :=
  match moduleTemplates d.name with
  | none => .error (.templateNotFound d.name)
  | some t =>
    match d.dependencies.find? (fun dep => (objGet modules dep).isNone) with
    | some dep => .error (.unsatisfiedDep dep d.name)
    | none => .ok ⟨t.name, t.version, t.type, t.apiNames, d.dependencies, true⟩

/-- The load loop of `loadEssentialModules` (lines 1794-1815): each definition
is loaded; on success the instance is stored under its name and its exports
registered; on any error the loop's catch rethrows
`No se pudo cargar módulo esencial: <name>`, aborting the remaining loads
(fail-fast) while the state accumulated so far persists. -/
def loadModulesRun : List ModuleDef → KLState → KLState × Option KErr
  | [], st => (st, none)
  | d :: ds, st =>
    match loadModule d st.modules with
    | .error _ => (st, some (.essentialLoadFailed d.name))
    | .ok m =>
      loadModulesRun ds
        ⟨objSet st.modules d.name m, registerExports d.name d.exports st.symbols⟩

/-- Stable insertion preserving input order at equal priorities: the JS
`essentialModules.sort((a, b) => a.priority - b.priority)` (line 1791) is a
stable ascending sort by priority. -/
def insertByPriority (x : ModuleDef) : List ModuleDef → List ModuleDef
  | [] => [x]
  | y :: ys =>
    if x.priority ≤ y.priority then x :: y :: ys else y :: insertByPriority x ys

def sortByPriority : List ModuleDef → List ModuleDef
  | [] => []
  | x :: xs => insertByPriority x (sortByPriority xs)

/-- The fixed `essentialModules` list (lines 1728-1788). -/
def essentialModules : List ModuleDef :=
  [⟨"scheduler", "kernel/core/scheduler.js", 1, [],
     ["schedule", "createProcess", "terminateProcess", "yield", "sleep"]⟩,
   ⟨"memory-manager", "kernel/core/memory-manager.js", 1, [],
     ["kmalloc", "kfree", "mapMemory", "unmapMemory", "getPhysicalAddress"]⟩,
   ⟨"process-manager", "kernel/core/process-manager.js", 1, ["scheduler", "memory-manager"],
     ["createProcess", "terminateProcess", "getProcessById", "getAllProcesses", "sendSignal"]⟩,
   ⟨"ipc-system", "kernel/core/ipc-system.js", 2, ["process-manager"],
     ["createMessageQueue", "sendMessage", "receiveMessage", "createSharedMemory",
      "destroySharedMemory"]⟩,
   ⟨"syscalls", "kernel/core/syscalls.js", 0, ["process-manager", "memory-manager"], []⟩]

/-- `loadEssentialModules` (lines 1724-1819): priority sort, then the load
loop. -/
def loadEssentialModules (st : KLState) : KLState × Option KErr :=
  loadModulesRun (sortByPriority essentialModules) st

/-- Projection used by concrete evaluations: the symbol table of a successful
run. -/
def runSymbols (out : KLState × Option KErr) : Option (List (String × SymbolEntry)) :=
  match out.2 with
  | none => some out.1.symbols
  | some _ => none

/-- A module definition depending on itself — a dependency cycle of length 1
(the template for `scheduler` exists, so the dependency check is reached). -/
def selfDepDef : ModuleDef := ⟨"scheduler", "kernel/core/scheduler.js", 1, ["scheduler"], []⟩

/-- A definition whose name has no entry in `moduleTemplates` and whose single
dependency is absent from the loaded-module map. -/
def noTemplateDef : ModuleDef := ⟨"nonexistent-module", "kernel/x.js", 1, ["dep1"], []⟩

/-- Two definitions with existing templates and no dependencies that export
the same symbol name. -/
def dupExportA : ModuleDef := ⟨"scheduler", "kernel/core/scheduler.js", 1, [], ["sharedSym"]⟩

def dupExportB : ModuleDef := ⟨"memory-manager", "kernel/core/memory-manager.js", 2, [], ["sharedSym"]⟩

/-! ## BootLoader (src/boot/loader.js)

`start` (lines 29-88) runs the three fixed stages in order, setting
`this.currentStage = i + 1` (1-based) before invoking each stage's action.  A
`success: false` result throws into the catch block, which records the error
message and returns a failure naming `this.currentStage` — subsequent stages
are never invoked.  Only the success path (line 64) sets
`bootStatus.endTime`.  The stage actions are external collaborators; their
outcomes are a parameter here, and `invocations` counts how many stage actions
were invoked (the claim's invocation-count collaborator). -/

structure StageResult where
  success : Bool
  error : Option String
  kernelModules : List (String × String)
  services : List (String × String)
deriving DecidableEq

def blStages : List String := ["stage1-bios", "stage2-kernel-loader", "stage3-init"]

structure BootStatus where
  initialized : Bool
  errors : List String
  warnings : List String
  startTime : Option Nat
  endTime : Option Nat
deriving DecidableEq

structure BLState where
  currentStage : Nat
  bootStatus : BootStatus
  kernelModules : List (String × String)
  systemServices : List (String × String)
  invocations : Nat
deriving DecidableEq

/-- The value returned by `start`: the success object of lines 70-75 (boot
time kept in milliseconds; the source divides by 1000 for display) or the
failure object of lines 81-86. -/
inductive StartResult where
  | completed (bootTimeMs : Nat) (kernelModules services : List String)
  | failed (error : String) (stage : Nat) (stageName : Option String)
deriving DecidableEq

def StartResult.isCompleted : StartResult → Bool
  | .completed _ _ _ => true
  | .failed _ _ _ => false

/-- The stage loop (lines 35-54): sets `currentStage := i + 1`, invokes the
stage action, throws on `success = false` (carrying the stage name and the
result's error, JS rendering a missing `error` as `undefined`), otherwise
spread-merges the produced modules and services into accumulated state. -/
def runStages : List (String × StageResult) → Nat → BLState → BLState × Option (String × String)
  | [], _, st => (st, none)
  | (nm, r) :: rest, i, st =>
    let st1 : BLState := { st with currentStage := i + 1, invocations := st.invocations + 1 }
    if r.success then
      runStages rest (i + 1)
        { st1 with
          kernelModules := objMerge st1.kernelModules r.kernelModules,
          systemServices := objMerge st1.systemServices r.services }
    else (st1, some (nm, r.error.getD "undefined"))

/-- `start` (lines 29-88).  `t0` is `Date.now()` at entry, `t1` at the success
point.  `mountVirtualFilesystem` and `initializeSystemServices` (lines
150-196) only build a local object and write to the console, so they
contribute no state here. -/
def blStart (results : List StageResult) (t0 t1 : Nat) (st : BLState) : BLState × StartResult :=
  let st0 : BLState := { st with bootStatus := { st.bootStatus with startTime := some t0 } }
  match runStages (blStages.zip results) 0 st0 with
  | (st1, some (nm, emsg)) =>
    let msg := "Fallo en etapa " ++ nm ++ ": " ++ emsg
    let st2 : BLState :=
      { st1 with bootStatus := { st1.bootStatus with errors := st1.bootStatus.errors ++ [msg] } }
    (st2, .failed msg st2.currentStage blStages[st2.currentStage - 1]?)
  | (st1, none) =>
    let st2 : BLState :=
      { st1 with bootStatus := { st1.bootStatus with initialized := true, endTime := some t1 } }
    (st2, .completed (t1 - t0) (objKeys st2.kernelModules) (objKeys st2.systemServices))

structure BootStatusView where
  initialized : Bool
  errors : List String
  warnings : List String
  startTime : Option Nat
  endTime : Option Nat
  currentStage : Nat
  totalStages : Nat
  kernelModules : Nat
  systemServices : Nat
deriving DecidableEq

/-- `getBootStatus` (lines 208-216). -/
def getBootStatus (st : BLState) : BootStatusView :=
  ⟨st.bootStatus.initialized, st.bootStatus.errors, st.bootStatus.warnings,
   st.bootStatus.startTime, st.bootStatus.endTime, st.currentStage, blStages.length,
   (objKeys st.kernelModules).length, (objKeys st.systemServices).length⟩

/-- The state-clearing part of `reboot` (lines 225-228), i.e. the loader's
state just before `reboot` re-invokes `start`.  Note lines 225-228 touch only
`currentStage`, `bootStatus.initialized`, `kernelModules` and
`systemServices`. -/
def rebootReset (st : BLState) : BLState :=
  { st with currentStage := 0,
            bootStatus := { st.bootStatus with initialized := false },
            kernelModules := [], systemServices := [] }

def freshBL : BLState := ⟨0, ⟨false, [], [], none, none⟩, [], [], 0⟩

/-- The built-in stage results (lines 97-138): all three stages succeed. -/
def stageOk1 : StageResult := ⟨true, none, [], []⟩

def stageOk2 : StageResult :=
  ⟨true, none, [("scheduler", "loaded"), ("memory-manager", "loaded"),
                ("process-manager", "loaded")], []⟩

def stageOk3 : StageResult :=
  ⟨true, none, [], [("auth", "running"), ("vfs", "running"), ("network", "running")]⟩

/-- A failing stage result (`success: false` with an error message). -/
def stageFail : StageResult := ⟨false, some "Simulated failure", [], []⟩

/-! ## KernelInitializer.verifyKernelIntegrity (src/unnamed/part_000, lines 462-532)

A read-only classification of the initializer's state.  The checks read only
key presence / truthiness, so the state is modelled by the key lists and
truthiness flags actually inspected.  `deviceTree` and `bootParams` are
initialized to `{}` (always truthy in JS); what the check tests is
`deviceTree.root` resp. `bootParams.kernelVersion`.  The function performs no
assignment to `this`, so it takes the state and the current `Date.now()` and
returns only the report. -/

structure KIState where
  systemTables : List String
  interruptHandlers : List Nat
  kernelModules : List String
  kernelHeap : Bool
  deviceTreeRoot : Bool
  bootParamsKernelVersion : Bool
deriving DecidableEq

structure KIReport where
  healthy : Bool
  checks : List String
  issues : List String
  warnings : List String
  tables : Nat
  interrupts : Nat
  modules : Nat
  timestamp : Nat
deriving DecidableEq

def requiredTables : List String := ["gdt", "idt", "tss", "pml4"]

def criticalInterrupts : List Nat := [0, 8, 13, 14, 32]

def requiredKIModules : List String := ["scheduler", "memory", "time", "ipc"]

def verifyKernelIntegrity (st : KIState) (now : Nat) : KIReport :=
  let p1 := requiredTables.foldl
    (fun acc t =>
      if st.systemTables.contains t then (acc.1 ++ [t.toUpper ++ ": OK"], acc.2)
      else (acc.1, acc.2 ++ ["Tabla " ++ t ++ " no inicializada"]))
    (([], []) : List String × List String)
  let p2 := criticalInterrupts.foldl
    (fun acc v =>
      if st.interruptHandlers.contains v then
        (acc.1 ++ ["Interrupt " ++ toString v ++ ": OK"], acc.2)
      else (acc.1, acc.2 ++ ["Manejador de interrupción " ++ toString v ++ " faltante"]))
    p1
  let p3 := requiredKIModules.foldl
    (fun acc m =>
      if st.kernelModules.contains m then (acc.1 ++ ["Módulo " ++ m ++ ": OK"], acc.2)
      else (acc.1, acc.2 ++ ["Módulo " ++ m ++ " no inicializado"]))
    p2
  let p4 :=
    if st.kernelHeap then (p3.1 ++ ["Heap del kernel: OK"], p3.2)
    else (p3.1, p3.2 ++ ["Heap del kernel no inicializado"])
  let c5 := if st.deviceTreeRoot then p4.1 ++ ["Árbol de dispositivos: OK"] else p4.1
  let w5 : List String := if st.deviceTreeRoot then [] else ["Árbol de dispositivos incompleto"]
  let c6 := if st.bootParamsKernelVersion then c5 ++ ["Parámetros de boot: OK"] else c5
  let w6 := if st.bootParamsKernelVersion then w5 else w5 ++ ["Parámetros de boot no configurados"]
  { healthy := p4.2.isEmpty, checks := c6, issues := p4.2, warnings := w6,
    tables := st.systemTables.length, interrupts := st.interruptHandlers.length,
    modules := st.kernelModules.length, timestamp := now }

/-- The initializer's constructor state (lines 7-17): everything empty. -/
def kiFresh : KIState := ⟨[], [], [], false, false, false⟩

/-! ## Stage3Init service manager (src/unnamed/part_001)

`enterRunlevel` (lines 596-619) looks up the runlevel's service-name list in
`this.serviceTable` and starts each in order; each start is wrapped in
try/catch, where the catch only logs the error (the `errlog` field below
models that per-service console record) and the loop continues.
`startService` (lines 624-772) looks up a hard-coded template (throwing
`Servicio no encontrado` when absent), checks the runlevel (throwing
`Servicio ... no disponible en runlevel ...` on mismatch), then runs the
template's simulated `start` and pushes a daemon entry when
`type === 'daemon'`.  The `start` payload fields beyond the pid are opaque
simulation detail. -/

structure ProcInfo where
  pid : Nat
  status : String
deriving DecidableEq

structure ServiceTemplate where
  name : String
  description : String
  type : String
  runlevels : List Nat
  startResult : ProcInfo
  hasStop : Bool
deriving DecidableEq

/-- The `serviceTemplates` table (lines 626-737). -/
def serviceTemplates : String → Option ServiceTemplate := fun n =>
  if n = "emergency-shell" then
    some ⟨"emergency-shell", "Shell de emergencia", "daemon", [1], ⟨1001, "running"⟩, true⟩
  else if n = "basic-network" then
    some ⟨"basic-network", "Configuración básica de red", "service", [1, 2, 3, 5],
      ⟨1002, "running"⟩, false⟩
  else if n = "minimal-fs" then
    some ⟨"minimal-fs", "Filesystem mínimo", "service", [1, 2, 3, 5], ⟨1003, "running"⟩, false⟩
  else if n = "cron" then
    some ⟨"cron", "Programador de tareas", "daemon", [2, 3, 5], ⟨1004, "running"⟩, false⟩
  else if n = "syslog" then
    some ⟨"syslog", "Sistema de logging", "daemon", [2, 3, 5], ⟨1005, "running"⟩, false⟩
  else if n = "dbus" then
    some ⟨"dbus", "Bus de mensajes del sistema", "daemon", [2, 3, 5], ⟨1006, "running"⟩, false⟩
  else if n = "network-manager" then
    some ⟨"network-manager", "Gestor de red", "daemon", [2, 3, 5], ⟨1007, "running"⟩, false⟩
  else if n = "display-manager" then
    some ⟨"display-manager", "Gestor de display gráfico", "daemon", [5], ⟨1008, "running"⟩, false⟩
  else if n = "desktop-environment" then
    some ⟨"desktop-environment", "Entorno de escritorio", "service", [5], ⟨1009, "running"⟩, false⟩
  else if n = "window-manager" then
    some ⟨"window-manager", "Gestor de ventanas", "daemon", [5], ⟨1010, "running"⟩, false⟩
  else none

/-- The object built at lines 750-759: template spread plus `startedAt` (the
`Date.now()` at start), the runlevel, the start result as `process`, and
`status := "running"`. -/
structure ServiceInfo where
  name : String
  description : String
  type : String
  runlevels : List Nat
  startedAt : Nat
  runlevel : Nat
  process : ProcInfo
  status : String
deriving DecidableEq

/-- Entry pushed onto `this.daemons` (lines 763-767). -/
structure DaemonEntry where
  name : String
  pid : Nat
  since : Nat
deriving DecidableEq

inductive S3Err where
  | serviceNotFound (name : String)
  | runlevelMismatch (name : String) (runlevel : Nat)
deriving DecidableEq

def s3ErrMsg : S3Err → String
  | .serviceNotFound n => "Servicio no encontrado: " ++ n
  | .runlevelMismatch n rl => "Servicio " ++ n ++ " no disponible en runlevel " ++ toString rl

/-- `startService` (lines 624-772).  The daemon push performed inside the JS
function (after a successful `start`) is returned as the optional
`DaemonEntry`; both error exits happen before any mutation. -/
def startService (nm : String) (rl now : Nat) : Except S3Err (ServiceInfo × Option DaemonEntry) :=
  match serviceTemplates nm with
  | none => .error (.serviceNotFound nm)
  | some t =>
    if rl ∈ t.runlevels then
      let info : ServiceInfo := ⟨t.name, t.description, t.type, t.runlevels, now, rl,
        t.startResult, "running"⟩
      .ok (info, if t.type = "daemon" then some ⟨nm, t.startResult.pid, now⟩ else none)
    else .error (.runlevelMismatch nm rl)

structure S3State where
  services : List (String × ServiceInfo)
  daemons : List DaemonEntry
  serviceTable : List (Nat × List String)
  errlog : List (String × String)
deriving DecidableEq

/-- The per-service loop of `enterRunlevel` (lines 606-618): on success the
instance is recorded under the service name and any daemon entry appended; on
error only the per-service error record is made and the batch continues. -/
def runServices : List String → Nat → Nat → S3State → S3State
  | [], _, _, st => st
  | nm :: rest, rl, now, st =>
    match startService nm rl now with
    | .ok (info, dopt) =>
      runServices rest rl now
        { st with services := objSet st.services nm info, daemons := st.daemons ++ dopt.toList }
    | .error e =>
      runServices rest rl now { st with errlog := st.errlog ++ [(nm, s3ErrMsg e)] }

/-- `enterRunlevel` (lines 596-619): `this.serviceTable[runlevel] || []`. -/
def enterRunlevel (rl now : Nat) (st : S3State) : S3State :=
  runServices ((objGet st.serviceTable rl).getD []) rl now st

/-- A Stage3 state whose runlevel-3 table requests `ssh` (which has no
template — exactly the source's own `serviceTable[3]` content) and `cron`. -/
def s3Example : S3State := ⟨[], [], [(3, ["ssh", "cron"])], []⟩

/-- A Stage3 state whose runlevel-3 table requests `cron` (supports runlevel
3) and `display-manager` (supports only runlevel 5). -/
def s3Mismatch : S3State := ⟨[], [], [(3, ["cron", "display-manager"])], []⟩

/-! # Helper lemmas -/

theorem objGet_objSet_self {κ α : Type} [DecidableEq κ]
    (l : List (κ × α)) (k : κ) (v : α) : objGet (objSet l k v) k = some v := by
  induction l with
  | nil => simp [objSet, objGet]
  | cons hd tl ih =>
    obtain ⟨k', v'⟩ := hd
    by_cases h : k' = k
    · simp [objSet, objGet, h]
    · simp [objSet, objGet, h, ih]

theorem objGet_objSet_ne {κ α : Type} [DecidableEq κ]
    (l : List (κ × α)) (k k' : κ) (v : α) (h : k ≠ k') :
    objGet (objSet l k v) k' = objGet l k' := by
  induction l with
  | nil => simp [objSet, objGet, h]
  | cons hd tl ih =>
    obtain ⟨k0, v0⟩ := hd
    by_cases h0 : k0 = k
    · subst h0
      simp [objSet, objGet, h]
    · by_cases h1 : k0 = k'
      · simp [objSet, objGet, h0, h1, Ne.symm h]
      · simp [objSet, objGet, h0, h1, ih]

theorem objKeys_objSet {κ α : Type} [DecidableEq κ]
    (l : List (κ × α)) (k : κ) (v : α) :
    objKeys (objSet l k v) = if k ∈ objKeys l then objKeys l else objKeys l ++ [k] := by
  induction l with
  | nil => simp [objSet, objKeys]
  | cons hd tl ih =>
    obtain ⟨k0, v0⟩ := hd
    by_cases h0 : k0 = k
    · subst h0
      simp [objSet, objKeys]
    · have hne : ¬ k = k0 := fun h => h0 h.symm
      simp only [objSet, if_neg h0, objKeys, List.map_cons, List.mem_cons]
      unfold objKeys at ih
      rw [ih]
      by_cases hk : k ∈ List.map Prod.fst tl
      · simp [hk, hne]
      · simp [hk, hne]

theorem objWF_objSet {κ α : Type} [DecidableEq κ]
    (l : List (κ × α)) (k : κ) (v : α) (h : objWF l) : objWF (objSet l k v) := by
  unfold objWF
  rw [objKeys_objSet]
  by_cases hk : k ∈ objKeys l
  · simpa [hk] using h
  · simp only [hk, if_false]
    exact List.Nodup.append h (List.nodup_singleton k) (by
      intro a ha hb
      simp at hb
      exact hk (hb ▸ ha))

theorem count_objKeys_of_objGet {κ α : Type} [DecidableEq κ]
    (l : List (κ × α)) (k : κ) (v : α) (hwf : objWF l) (h : objGet l k = some v) :
    (objKeys l).count k = 1 := by
  induction l with
  | nil => simp [objGet] at h
  | cons hd tl ih =>
    obtain ⟨k0, v0⟩ := hd
    unfold objWF objKeys at hwf
    simp only [List.map_cons, List.nodup_cons] at hwf
    by_cases h0 : k0 = k
    · subst h0
      have hnot : k0 ∉ List.map Prod.fst tl := hwf.1
      simp [objKeys, List.count_cons, List.count_eq_zero.mpr hnot]
    · simp only [objGet, if_neg h0] at h
      have hc := ih hwf.2 h
      unfold objKeys at hc
      simp [objKeys, List.count_cons, hc, h0]

theorem registerExports_objGet_of_not_mem (modName nm : String) (es : List String)
    (syms : List (String × SymbolEntry)) (h : nm ∉ es) :
    objGet (registerExports modName es syms) nm = objGet syms nm := by
  induction es generalizing syms with
  | nil => rfl
  | cons e rest ih =>
    simp only [List.mem_cons] at h
    push_neg at h
    simp only [registerExports]
    rw [ih _ h.2, objGet_objSet_ne _ _ _ _ (Ne.symm h.1)]

theorem registerExports_objGet_of_mem (modName nm : String) (es : List String)
    (syms : List (String × SymbolEntry)) (h : nm ∈ es) :
    ∃ a, objGet (registerExports modName es syms) nm = some ⟨modName, a⟩ := by
  induction es generalizing syms with
  | nil => exact absurd h (List.not_mem_nil nm)
  | cons e rest ih =>
    by_cases hr : nm ∈ rest
    · exact ih _ hr
    · have he : nm = e := by
        rcases List.mem_cons.mp h with h1 | h2
        · exact h1
        · exact absurd h2 hr
      subst he
      refine ⟨symAddr syms, ?_⟩
      simp only [registerExports]
      rw [registerExports_objGet_of_not_mem _ _ _ _ hr, objGet_objSet_self]

theorem registerExports_objWF (modName : String) (es : List String)
    (syms : List (String × SymbolEntry)) (h : objWF syms) :
    objWF (registerExports modName es syms) := by
  induction es generalizing syms with
  | nil => exact h
  | cons e rest ih => exact ih _ (objWF_objSet _ _ _ h)

/-! # Claims -/

/-- Claim C1 (code bug): the essential-module loading path cannot produce the
claimed dependency-respecting order even on its own built-in input.  After the
priority sort, `syscalls` (priority 0) comes first but depends on
`process-manager` and `memory-manager` (priority 1), so the very first load
fails the dependency check and the run aborts with
`No se pudo cargar módulo esencial: syscalls`, leaving nothing loaded: there
is no topological pass behind the priority sort. -/
theorem c1_essential_load_always_fails :
    loadEssentialModules freshKL = (freshKL, some (KErr.essentialLoadFailed "syscalls")) := by
  decide

/-- Claim C2 counterexample: with two modules whose definitions both export
`sharedSym` (templates `scheduler` then `memory-manager`, no dependencies),
the run reports no error at all and the symbol table ends with exactly one
entry for `sharedSym` owned by the SECOND module — the first module's entry
was silently overwritten, and no `SymbolConflictError` exists in the code. -/
theorem c2_counterexample :
    runSymbols (loadModulesRun [dupExportA, dupExportB] freshKL) =
      some [("sharedSym", ⟨"memory-manager", "kernel+0x100008"⟩)] := by
  decide

/-- Claim C2 (amended): when a second module registers an exported symbol name
that is already present, registration succeeds silently and the table
afterwards contains exactly one entry for that name — the second (latest)
module's entry, not the first's. -/
theorem c2_silent_overwrite (d1 d2 : ModuleDef) (nm : String)
    {t1 t2 : ModuleTemplate}
    (h1 : moduleTemplates d1.name = some t1) (h2 : moduleTemplates d2.name = some t2)
    (hd1 : d1.dependencies = []) (hd2 : d2.dependencies = [])
    (_he1 : nm ∈ d1.exports) (he2 : nm ∈ d2.exports) :
    (loadModulesRun [d1, d2] freshKL).2 = none ∧
    (objGet (loadModulesRun [d1, d2] freshKL).1.symbols nm).map SymbolEntry.module =
      some d2.name ∧
    (objKeys (loadModulesRun [d1, d2] freshKL).1.symbols).count nm = 1 := by
  have hrun : loadModulesRun [d1, d2] freshKL =
      (⟨objSet (objSet [] d1.name ⟨t1.name, t1.version, t1.type, t1.apiNames,
          d1.dependencies, true⟩) d2.name ⟨t2.name, t2.version, t2.type, t2.apiNames,
          d2.dependencies, true⟩,
        registerExports d2.name d2.exports (registerExports d1.name d1.exports [])⟩,
       none) := by
    simp [loadModulesRun, loadModule, h1, h2, hd1, hd2, freshKL]
  rw [hrun]
  obtain ⟨a, ha⟩ := registerExports_objGet_of_mem d2.name nm d2.exports
    (registerExports d1.name d1.exports []) he2
  have hwf : objWF (registerExports d2.name d2.exports (registerExports d1.name d1.exports [])) :=
    registerExports_objWF _ _ _ (registerExports_objWF _ _ _ (by simp [objWF, objKeys]))
  refine ⟨rfl, ?_, ?_⟩
  · rw [ha]
    rfl
  · exact count_objKeys_of_objGet _ _ _ hwf ha

/-- Witness for `c2_silent_overwrite` at the concrete pair
`dupExportA`/`dupExportB`. -/
theorem c2_silent_overwrite_witness :
    (loadModulesRun [dupExportA, dupExportB] freshKL).2 = none ∧
    (objGet (loadModulesRun [dupExportA, dupExportB] freshKL).1.symbols "sharedSym").map
      SymbolEntry.module = some dupExportB.name ∧
    (objKeys (loadModulesRun [dupExportA, dupExportB] freshKL).1.symbols).count "sharedSym" = 1 :=
  @c2_silent_overwrite dupExportA dupExportB "sharedSym"
    ⟨"scheduler", "1.0.0", "kernel",
      ["schedule", "createProcess", "terminateProcess", "yield", "sleep"]⟩
    ⟨"memory-manager", "1.0.0", "kernel",
      ["kmalloc", "kfree", "mapMemory", "unmapMemory", "getPhysicalAddress"]⟩
    (by decide) (by decide) (by decide) (by decide) (by decide) (by decide)

/-- Claim C3 counterexample: for the run `[success, failure, success]` the
failure return and the recorded `currentStage` are the 1-based value `2`, not
the 0-based index `1` the claim states (the loop at loader.js line 36 sets
`this.currentStage = i + 1`). -/
theorem c3_counterexample :
    (blStart [stageOk1, stageFail, stageOk3] 0 100 freshBL).2 =
      StartResult.failed "Fallo en etapa stage2-kernel-loader: Simulated failure" 2
        (some "stage2-kernel-loader") ∧
    (blStart [stageOk1, stageFail, stageOk3] 0 100 freshBL).1.currentStage = 2 ∧
    (blStart [stageOk1, stageFail, stageOk3] 0 100 freshBL).1.invocations = 2 := by
  decide

/-- Claim C3 (amended): a three-stage run whose first stage succeeds and whose
second fails terminates in the failed state, records the 1-based stage number
2 (identifying the second stage, i.e. 0-based index 1) in both the state and
the returned failure, and invokes only two stage actions — the third stage's
action is never invoked. -/
theorem c3_second_stage_failure (r1 r2 r3 : StageResult) (t0 t1 : Nat) (st : BLState)
    (h1 : r1.success = true) (h2 : r2.success = false) :
    (blStart [r1, r2, r3] t0 t1 st).1.currentStage = 2 ∧
    (blStart [r1, r2, r3] t0 t1 st).1.invocations = st.invocations + 2 ∧
    (blStart [r1, r2, r3] t0 t1 st).2 =
      StartResult.failed ("Fallo en etapa stage2-kernel-loader: " ++ r2.error.getD "undefined")
        2 (some "stage2-kernel-loader") ∧
    (blStart [r1, r2, r3] t0 t1 st).1.bootStatus.errors =
      st.bootStatus.errors ++
        ["Fallo en etapa stage2-kernel-loader: " ++ r2.error.getD "undefined"] := by
  simp [blStart, runStages, blStages, h1, h2]

/-- Witness for `c3_second_stage_failure` at the concrete stage results. -/
theorem c3_second_stage_failure_witness :
    (blStart [stageOk1, stageFail, stageOk1] 0 100 freshBL).1.currentStage = 2 ∧
    (blStart [stageOk1, stageFail, stageOk1] 0 100 freshBL).1.invocations =
      freshBL.invocations + 2 ∧
    (blStart [stageOk1, stageFail, stageOk1] 0 100 freshBL).2 =
      StartResult.failed
        ("Fallo en etapa stage2-kernel-loader: " ++ stageFail.error.getD "undefined") 2
        (some "stage2-kernel-loader") ∧
    (blStart [stageOk1, stageFail, stageOk1] 0 100 freshBL).1.bootStatus.errors =
      freshBL.bootStatus.errors ++
        ["Fallo en etapa stage2-kernel-loader: " ++ stageFail.error.getD "undefined"] :=
  c3_second_stage_failure stageOk1 stageFail stageOk1 0 100 freshBL rfl rfl

theorem runStages_bootStatus (l : List (String × StageResult)) (i : Nat) (st : BLState) :
    (runStages l i st).1.bootStatus = st.bootStatus := by
  induction l generalizing i st with
  | nil => rfl
  | cons p rest ih =>
    obtain ⟨nm, r⟩ := p
    by_cases hr : r.success
    · simp only [runStages, hr, if_true]
      rw [ih]
    · simp [runStages, hr]

/-- Claim C4 counterexample: a run that terminates in the failed state (second
stage fails) has no `endTime` recorded at all — the catch block of
loader.js lines 77-87 never sets it. -/
theorem c4_counterexample :
    (blStart [stageOk1, stageFail, stageOk3] 0 100 freshBL).2.isCompleted = false ∧
    (blStart [stageOk1, stageFail, stageOk3] 0 100 freshBL).1.bootStatus.endTime = none := by
  decide

/-- Claim C4 (amended): `endTime` is set (to the completion clock) exactly when
the run completes successfully; a failed run leaves `endTime` exactly as it was
before the run (`none` for a fresh loader), and the stage loop itself never
touches `endTime`. -/
theorem c4_endTime_only_on_success (results : List StageResult) (t0 t1 : Nat) (st : BLState) :
    ((blStart results t0 t1 st).2.isCompleted = true →
      (blStart results t0 t1 st).1.bootStatus.endTime = some t1) ∧
    ((blStart results t0 t1 st).2.isCompleted = false →
      (blStart results t0 t1 st).1.bootStatus.endTime = st.bootStatus.endTime) := by
  have hbs := runStages_bootStatus (blStages.zip results) 0
    { st with bootStatus := { st.bootStatus with startTime := some t0 } }
  rcases hrun : runStages (blStages.zip results) 0
      { st with bootStatus := { st.bootStatus with startTime := some t0 } } with ⟨st1, opt⟩
  rw [hrun] at hbs
  dsimp only at hbs
  rcases opt with _ | ⟨nm, emsg⟩
  · constructor
    · intro _
      simp [blStart, hrun]
    · intro hfalse
      exfalso
      simp [blStart, hrun, StartResult.isCompleted] at hfalse
  · constructor
    · intro htrue
      exfalso
      simp [blStart, hrun, StartResult.isCompleted] at htrue
    · intro _
      simp [blStart, hrun, hbs]

/-- Witness for `c4_endTime_only_on_success`: a completed run records the
completion clock, a failed run keeps the fresh loader's `none`. -/
theorem c4_endTime_witness :
    (blStart [stageOk1, stageOk2, stageOk3] 0 5 freshBL).1.bootStatus.endTime = some 5 ∧
    (blStart [stageFail, stageOk2, stageOk3] 0 5 freshBL).1.bootStatus.endTime =
      freshBL.bootStatus.endTime :=
  ⟨(c4_endTime_only_on_success [stageOk1, stageOk2, stageOk3] 0 5 freshBL).1 (by decide),
   (c4_endTime_only_on_success [stageFail, stageOk2, stageOk3] 0 5 freshBL).2 (by decide)⟩

/-- Claim C6 counterexample: two calls of `verifyKernelIntegrity` on the very
same (fresh) state are not byte-for-byte identical, because the report embeds
`timestamp: Date.now()` (line 530) and the function's own `delay(70)` forces
successive calls to see different clocks (here 0 ms and 70 ms). -/
theorem c6_counterexample :
    verifyKernelIntegrity kiFresh 0 ≠ verifyKernelIntegrity kiFresh 70 := by
  decide

/-- Claim C6 (amended): `verifyKernelIntegrity` is a pure function of the
inspected state — it performs no writes, and two calls with unchanged state
agree on every report field (healthy, checks, issues, warnings and the three
counts) except `timestamp`, which records each call's clock. -/
theorem c6_pure_up_to_timestamp (st : KIState) (n1 n2 : Nat) :
    verifyKernelIntegrity st n1 = { verifyKernelIntegrity st n2 with timestamp := n1 } := rfl

/-- Claim C7 counterexample: after a completed run, the state `reboot` hands
to the re-run still carries the previous run's timing fields — `endTime` is
still `some 5` (and `startTime` `some 0`) even though the claim says no
component of the prior run's recorded state survives. -/
theorem c7_counterexample :
    (getBootStatus (rebootReset (blStart [stageOk1, stageOk2, stageOk3] 0 5 freshBL).1)).kernelModules = 0 ∧
    (getBootStatus (rebootReset (blStart [stageOk1, stageOk2, stageOk3] 0 5 freshBL).1)).systemServices = 0 ∧
    (getBootStatus (rebootReset (blStart [stageOk1, stageOk2, stageOk3] 0 5 freshBL).1)).endTime = some 5 ∧
    (getBootStatus (rebootReset (blStart [stageOk1, stageOk2, stageOk3] 0 5 freshBL).1)).startTime = some 0 := by
  decide

/-- Claim C7 (amended): `reboot`'s reset (loader.js lines 225-228) zeroes the
stage pointer, clears `initialized` and discards all module handles and
service instances — so `getBootStatus` reports `kernelModules = 0` and
`systemServices = 0` before the re-run begins — but the boot status's
`errors`, `warnings`, `startTime` and `endTime` are carried over unchanged
from the previous run. -/
theorem c7_reboot_resets_counts_keeps_logs (st : BLState) :
    getBootStatus (rebootReset st) =
      ⟨false, st.bootStatus.errors, st.bootStatus.warnings, st.bootStatus.startTime,
       st.bootStatus.endTime, 0, 3, 0, 0⟩ := rfl

/-- Claim C5 counterexample: a module definition depending on itself (cycle of
length 1) makes `loadModule` throw the unsatisfied-dependency error
`Dependencia no satisfecha: scheduler para scheduler`, and the load loop
rethrows `No se pudo cargar módulo esencial` — there is no `CycleError` and no
cycle is reported (the source's error vocabulary `KErr` has no
cycle-reporting shape at all). -/
theorem c5_counterexample :
    loadModule selfDepDef [] = Except.error (KErr.unsatisfiedDep "scheduler" "scheduler") ∧
    (loadModulesRun [selfDepDef] freshKL).2 = some (KErr.essentialLoadFailed "scheduler") :=
  ⟨by rfl, by decide⟩

/-- Claim C5 (amended): a ModuleDefinition set containing a dependency cycle
(witnessed by a nonempty name set `S` every one of whose named definitions
depends back into `S`, with no `S` name already loaded) always makes the load
loop fail — the run throws instead of producing any order — but with the
unsatisfied-dependency error, not a `CycleError`. -/
theorem c5_cycles_always_fail (defs : List ModuleDef) (st : KLState) (S : List String)
    (hreal : ∃ x ∈ S, ∃ d ∈ defs, d.name = x)
    (hS : ∀ d ∈ defs, d.name ∈ S → ∃ y ∈ d.dependencies, y ∈ S)
    (hdisj : ∀ x ∈ S, objGet st.modules x = none) :
    (loadModulesRun defs st).2.isSome := by
  induction defs generalizing st with
  | nil =>
    obtain ⟨x, _, d, hd, _⟩ := hreal
    exact absurd hd (List.not_mem_nil d)
  | cons d ds ih =>
    simp only [loadModulesRun]
    rcases hm : loadModule d st.modules with e | m
    · simp
    · simp only []
      have hdS : d.name ∉ S := by
        intro hds
        obtain ⟨y, hy, hyS⟩ := hS d (List.mem_cons_self d ds) hds
        unfold loadModule at hm
        rcases htpl : moduleTemplates d.name with _ | t
        · rw [htpl] at hm
          exact absurd hm (by simp)
        · rw [htpl] at hm
          rcases hfind : d.dependencies.find? (fun dep => (objGet st.modules dep).isNone) with
              _ | dep
          · have := List.find?_eq_none.mp hfind y hy
            simp [hdisj y hyS] at this
          · rw [hfind] at hm
            exact absurd hm (by simp)
      apply ih
      · obtain ⟨x, hxS, d0, hd0, hname⟩ := hreal
        refine ⟨x, hxS, d0, ?_, hname⟩
        rcases List.mem_cons.mp hd0 with h | h
        · exfalso
          apply hdS
          rw [← h, hname]
          exact hxS
        · exact h
      · intro d' hd' hd'S
        exact hS d' (List.mem_cons_of_mem d hd') hd'S
      · intro x hxS
        have hne : d.name ≠ x := fun h => hdS (h ▸ hxS)
        rw [show (⟨objSet st.modules d.name m,
              registerExports d.name d.exports st.symbols⟩ : KLState).modules =
            objSet st.modules d.name m from rfl]
        rw [objGet_objSet_ne _ _ _ _ hne]
        exact hdisj x hxS

/-- Witness for `c5_cycles_always_fail` at the concrete self-dependent
definition. -/
theorem c5_cycles_always_fail_witness :
    (loadModulesRun [selfDepDef] freshKL).2.isSome := by
  refine c5_cycles_always_fail [selfDepDef] freshKL ["scheduler"]
    ⟨"scheduler", by decide, selfDepDef, by simp, rfl⟩ ?_ ?_
  · intro d hd hdS
    have hds : d = selfDepDef := by simpa using hd
    subst hds
    exact ⟨"scheduler", by decide, by decide⟩
  · intro x hx
    rfl

/-- Claim C9 counterexample: a module definition whose name has no template
and whose dependency `dep1` is absent from the (empty) loaded-module map fails
with `Template no encontrado`, not with the unsatisfied-dependency error — the
template lookup at lines 1921-1924 runs before the dependency check, so the
claim's universal quantification over every module definition fails. -/
theorem c9_counterexample :
    loadModule noTemplateDef [] = Except.error (KErr.templateNotFound "nonexistent-module") :=
  by rfl

/-- Claim C9 (amended): for every module definition whose name has a module
template, if some dependency is absent from the loaded-module map then
`loadModule` fails with the unsatisfied-dependency error (naming a missing
dependency), and a failed load leaves the loader state — the loaded-module
map and the symbol table — exactly as it was. -/
theorem c9_missing_dep_fails (d : ModuleDef) (mods : List (String × ModuleInstance))
    (syms : List (String × SymbolEntry))
    (htpl : (moduleTemplates d.name).isSome = true)
    (hdep : ∃ x ∈ d.dependencies, objGet mods x = none) :
    (∃ missing, loadModule d mods = Except.error (KErr.unsatisfiedDep missing d.name) ∧
      missing ∈ d.dependencies ∧ objGet mods missing = none) ∧
    (loadModulesRun [d] ⟨mods, syms⟩).1 = ⟨mods, syms⟩ := by
  obtain ⟨x, hx, hxnone⟩ := hdep
  have hfind : (d.dependencies.find? (fun dep => (objGet mods dep).isNone)).isSome = true := by
    rcases hf : d.dependencies.find? (fun dep => (objGet mods dep).isNone) with _ | dep
    · have := List.find?_eq_none.mp hf x hx
      simp [hxnone] at this
    · rfl
  rcases hf : d.dependencies.find? (fun dep => (objGet mods dep).isNone) with _ | dep
  · rw [hf] at hfind
    simp at hfind
  · obtain ⟨t, ht⟩ := Option.isSome_iff_exists.mp htpl
    have hmiss : objGet mods dep = none := by
      have := List.find?_some hf
      simpa using this
    have hload : loadModule d mods = Except.error (KErr.unsatisfiedDep dep d.name) := by
      unfold loadModule
      rw [ht, hf]
    refine ⟨⟨dep, hload, List.mem_of_find?_eq_some hf, hmiss⟩, ?_⟩
    simp only [loadModulesRun, hload]

/-- Witness for `c9_missing_dep_fails`: the loader's own `ipc-system`
definition against an empty loaded-module map. -/
theorem c9_missing_dep_fails_witness :
    (∃ missing,
      loadModule ⟨"ipc-system", "kernel/core/ipc-system.js", 2, ["process-manager"],
          ["createMessageQueue", "sendMessage", "receiveMessage", "createSharedMemory",
           "destroySharedMemory"]⟩ [] =
        Except.error (KErr.unsatisfiedDep missing "ipc-system") ∧
      missing ∈ ["process-manager"] ∧
      objGet ([] : List (String × ModuleInstance)) missing = none) ∧
    (loadModulesRun [⟨"ipc-system", "kernel/core/ipc-system.js", 2, ["process-manager"],
        ["createMessageQueue", "sendMessage", "receiveMessage", "createSharedMemory",
         "destroySharedMemory"]⟩] ⟨[], []⟩).1 = ⟨[], []⟩ :=
  c9_missing_dep_fails _ [] [] (by decide) ⟨"process-manager", by decide, rfl⟩

theorem runServices_untouched (names : List String) (rl now : Nat) (st : S3State) (nm : String)
    (hfail : serviceTemplates nm = none ∨
      ∃ t, serviceTemplates nm = some t ∧ rl ∉ t.runlevels) :
    objGet (runServices names rl now st).services nm = objGet st.services nm ∧
    (runServices names rl now st).daemons.filter (fun de => de.name == nm) =
      st.daemons.filter (fun de => de.name == nm) := by
  induction names generalizing st with
  | nil => exact ⟨rfl, rfl⟩
  | cons n rest ih =>
    by_cases hn : n = nm
    · subst hn
      have hserr : ∃ e, startService n rl now = Except.error e := by
        rcases hfail with h | ⟨t, ht, hrl⟩
        · exact ⟨S3Err.serviceNotFound n, by simp [startService, h]⟩
        · exact ⟨S3Err.runlevelMismatch n rl, by simp [startService, ht, hrl]⟩
      obtain ⟨e, he⟩ := hserr
      simp only [runServices, he]
      exact ih _
    · rcases hs : startService n rl now with e | ⟨info, dopt⟩
      · simp only [runServices, hs]
        exact ih _
      · simp only [runServices, hs]
        have h1 := ih { st with services := objSet st.services n info,
                                daemons := st.daemons ++ dopt.toList }
        refine ⟨?_, ?_⟩
        · rw [h1.1]
          exact objGet_objSet_ne _ _ _ _ hn
        · rw [h1.2]
          have hd : dopt.toList.filter (fun de => de.name == nm) = [] := by
            unfold startService at hs
            rcases ht : serviceTemplates n with _ | t
            · simp [ht] at hs
            · simp only [ht] at hs
              by_cases hrl : rl ∈ t.runlevels
              · rw [if_pos hrl] at hs
                simp only [Except.ok.injEq, Prod.mk.injEq] at hs
                rw [← hs.2]
                by_cases htype : t.type = "daemon" <;> simp [htype, Option.toList, hn]
              · rw [if_neg hrl] at hs
                simp at hs
          simp only [List.filter_append, hd, List.append_nil]

/-- Claim C10 (confirmed): inside `enterRunlevel`, a service whose start fails
for any reason — no template for the name, or a runlevel mismatch (the only
failure exits of `startService`, both of which throw before any mutation) —
leaves the service table and the daemon list unchanged for that name; entries
are recorded only after a successful start. -/
theorem c10_failed_start_leaves_tables (rl now : Nat) (st : S3State) (nm : String)
    (hfail : serviceTemplates nm = none ∨
      ∃ t, serviceTemplates nm = some t ∧ rl ∉ t.runlevels) :
    objGet (enterRunlevel rl now st).services nm = objGet st.services nm ∧
    (enterRunlevel rl now st).daemons.filter (fun de => de.name == nm) =
      st.daemons.filter (fun de => de.name == nm) := by
  unfold enterRunlevel
  exact runServices_untouched _ rl now st nm hfail

/-- Witness for `c10_failed_start_leaves_tables`: the source's own runlevel-3
table requests `ssh`, which has no service template; its failure leaves the
service and daemon tables untouched while the batch proceeds. -/
theorem c10_failed_start_leaves_tables_witness :
    objGet (enterRunlevel 3 0 s3Example).services "ssh" = objGet s3Example.services "ssh" ∧
    (enterRunlevel 3 0 s3Example).daemons.filter (fun de => de.name == "ssh") =
      s3Example.daemons.filter (fun de => de.name == "ssh") :=
  c10_failed_start_leaves_tables 3 0 s3Example "ssh" (Or.inl (by rfl))

/-- Claim C8 (confirmed): when `enterRunlevel` is called at runlevel `rl` with
a batch `[a, b]` where `a`'s template supports `rl` and `b`'s does not, `a` is
started (its instance is recorded with status `running`) while `b` fails
individually: exactly one per-service error record — the logged
`Servicio ... no disponible en runlevel ...` mismatch message — is appended
for `b`, the batch is not aborted, and `b` gets no service entry. -/
theorem c8_runlevel_mismatch_isolated (rl now : Nat) (st : S3State) (a b : String)
    {ta tb : ServiceTemplate}
    (htab : objGet st.serviceTable rl = some [a, b])
    (ha : serviceTemplates a = some ta) (hra : rl ∈ ta.runlevels)
    (hb : serviceTemplates b = some tb) (hrb : rl ∉ tb.runlevels)
    (hab : a ≠ b) :
    (objGet (enterRunlevel rl now st).services a).map ServiceInfo.status = some "running" ∧
    (enterRunlevel rl now st).errlog =
      st.errlog ++ [(b, "Servicio " ++ b ++ " no disponible en runlevel " ++ toString rl)] ∧
    objGet (enterRunlevel rl now st).services b = objGet st.services b := by
  have hsa : startService a rl now =
      Except.ok (⟨ta.name, ta.description, ta.type, ta.runlevels, now, rl, ta.startResult,
          "running"⟩,
        if ta.type = "daemon" then some ⟨a, ta.startResult.pid, now⟩ else none) := by
    simp only [startService, ha]
    rw [if_pos hra]
  have hsb : startService b rl now = Except.error (S3Err.runlevelMismatch b rl) := by
    simp only [startService, hb]
    rw [if_neg hrb]
  unfold enterRunlevel
  rw [htab]
  simp only [Option.getD, runServices, hsa, hsb]
  refine ⟨?_, ?_, ?_⟩
  · simp [objGet_objSet_self]
  · simp [s3ErrMsg]
  · simp [objGet_objSet_ne _ _ _ _ hab]

/-- Witness for `c8_runlevel_mismatch_isolated`: runlevel 3 with `cron`
(supports runlevels 2, 3, 5) and `display-manager` (supports only 5). -/
theorem c8_runlevel_mismatch_isolated_witness :
    (objGet (enterRunlevel 3 0 s3Mismatch).services "cron").map ServiceInfo.status =
      some "running" ∧
    (enterRunlevel 3 0 s3Mismatch).errlog =
      s3Mismatch.errlog ++
        [("display-manager",
          "Servicio " ++ "display-manager" ++ " no disponible en runlevel " ++ toString 3)] ∧
    objGet (enterRunlevel 3 0 s3Mismatch).services "display-manager" =
      objGet s3Mismatch.services "display-manager" :=
  @c8_runlevel_mismatch_isolated 3 0 s3Mismatch "cron" "display-manager"
    ⟨"cron", "Programador de tareas", "daemon", [2, 3, 5], ⟨1004, "running"⟩, false⟩
    ⟨"display-manager", "Gestor de display gráfico", "daemon", [5], ⟨1008, "running"⟩, false⟩
    (by rfl) (by rfl) (by decide) (by rfl) (by decide) (by decide)
